import Mathlib

/-!
Verification development for the `murmur` desktop build orchestrator
(`desktop/scripts/build.py`): a shallow embedding of its configuration
resolution, Conan-profile generation, command execution and the
build/sign/package pipeline, with theorems settling the spec's claims.

Python dictionaries (insertion-ordered) are embedded as association lists
`List (String × String)`; file-system and subprocess effects are made
explicit (a profile store, a command oracle giving each external command
an exit code and a duration, and a trace of invocations).
-/

namespace Murmur

/-- Association-list lookup: the value bound to key `k`, if any
(Python `d[k]` / `k in d`, on a string-valued dict). -/
def dictGet : List (String × String) → String → Option String
  | [], _ => none
  | (k', v) :: rest, k => if k' = k then some v else dictGet rest k

/-- Python `k in d`. -/
def hasKey (d : List (String × String)) (k : String) : Bool :=
  (dictGet d k).isSome

/-- Python ordered-dict assignment `d[k] = v`: updates the binding in place
when the key exists, else appends it. -/
def odSet : List (String × String) → String → String → List (String × String)
  | [], k, v => [(k, v)]
  | (k', v') :: rest, k, v =>
    if k' = k then (k, v) :: rest else (k', v') :: odSet rest k v

/-- Python `del d[k]`: removes the (first, hence only) binding of `k`. -/
def odDel : List (String × String) → String → List (String × String)
  | [], _ => []
  | (k', v') :: rest, k => if k' = k then rest else (k', v') :: odDel rest k

/-- `BuildConfiguration.__init__` (build.py:11-22): resolves the
`(target_os, arch, build_type)` triple, defaulting `target_os` to the host
OS name (`platform.system().lower()`, e.g. `"darwin"` on macOS) and `arch`
to the host machine unless `"universal"` was requested, which is kept
verbatim. -/
structure BuildConfiguration where
  target_os : String
  arch : String
  build_type : String
  deriving Repr, DecidableEq

/-- Constructor logic of `BuildConfiguration.__init__`: `hostOS` stands for
`platform.system().lower()` and `hostMachine` for `platform.machine()`. -/
def mkBuildConfiguration (hostOS hostMachine : String)
    (target_os arch : Option String) (build_type : String) :
    BuildConfiguration where
  target_os := target_os.getD hostOS
  arch :=
    if arch = some "universal" then "universal"
    else arch.getD (if hostMachine = "arm64" then "armv8" else "x86_64")
  build_type := build_type

/-- The final path component of `build_dir`:
`f"{self.target_os}-{self.arch}-{build_type}"` (build.py:21). -/
def BuildConfiguration.buildDirName (c : BuildConfiguration) : String :=
  c.target_os ++ "-" ++ c.arch ++ "-" ++ c.build_type

/-- `self.build_dir = self.root_dir / "build" / f"{os}-{arch}-{type}"`
(build.py:21), with POSIX path joining. -/
def BuildConfiguration.buildDir (c : BuildConfiguration) (root : String) :
    String :=
  root ++ "/build/" ++ c.buildDirName

/-- `self.conan_profile = f"{self.target_os}-{self.arch}"` (build.py:22).
Note the build type is not part of the profile name. -/
def BuildConfiguration.conanProfile (c : BuildConfiguration) : String :=
  c.target_os ++ "-" ++ c.arch

/-- `BuildConfiguration.setup_environment` (build.py:24-37): copies
`os.environ` and sets toolchain variables on the copy only. -/
def setup_environment (c : BuildConfiguration)
    (environ : List (String × String)) : List (String × String) :=
  if c.target_os = "windows" then
    odSet (odSet environ "CMAKE_GENERATOR" "Visual Studio 17 2022")
      "CMAKE_GENERATOR_PLATFORM" (if c.arch = "x86_64" then "x64" else "ARM64")
  else if c.target_os = "macos" then
    environ
  else if c.target_os = "linux" then
    odSet (odSet environ "CC" "gcc") "CXX" "g++"
  else
    environ

/-- `.title()` on the single-word OS names used here: capitalize the first
character (build.py:110). -/
def strTitle (s : String) : String := s.capitalize

/-- The `settings` dict of `BuildManager.create_conan_profile`
(build.py:109-130), built and mutated in source order: defaults, then the
macOS or Windows overrides (updates, an append, and two deletions). -/
def profileSettings (c : BuildConfiguration) : List (String × String) :=
  let os_name := if c.target_os = "macos" then "Macos" else strTitle c.target_os
  let base : List (String × String) :=
    [("os", os_name),
     ("arch", if c.arch = "universal" then "x86_64" else c.arch),
     ("build_type", c.build_type),
     ("compiler", "gcc"),
     ("compiler.version", "11"),
     ("compiler.libcxx", "libstdc++11"),
     ("compiler.cppstd", "20")]
  if c.target_os = "macos" then
    odSet (odSet (odSet base "compiler" "apple-clang")
      "compiler.version" "14") "compiler.libcxx" "libc++"
  else if c.target_os = "windows" then
    odDel (odDel
      (odSet (odSet (odSet base "compiler" "msvc") "compiler.version" "193")
        "compiler.runtime"
        (if c.build_type = "Release" then "static" else "dynamic"))
      "compiler.libcxx") "compiler.cppstd"
  else
    base

/-- `profile_content` assembly (build.py:132-136): a `[settings]` section of
`key=value` lines followed by an empty `[buildenv]` section. -/
def profileContent (c : BuildConfiguration) : String :=
  "[settings]\n" ++
    (profileSettings c).foldl
      (fun acc kv => acc ++ kv.1 ++ "=" ++ kv.2 ++ "\n") "" ++
    "\n[buildenv]\n"

/-- The per-user profile directory `~/.conan2/profiles`, embedded as an
association list from profile file name to file content. -/
structure ProfileStore where
  profiles : List (String × String)
  deriving Repr, DecidableEq

/-- `BuildManager.create_conan_profile` (build.py:106-140): writes the
synthesized content at the profile's path. -/
def create_conan_profile (c : BuildConfiguration) (fs : ProfileStore) :
    ProfileStore where
  profiles := odSet fs.profiles c.conanProfile (profileContent c)

/-- An external command: its argument vector (Python `cmd` list). -/
abbrev Cmd := List String

/-- The behavior of an external process: its exit code, its wall-clock
duration in seconds, and its output streams. The orchestrator treats every
external tool as opaque, so executions are parametrized by an oracle
assigning each command a behavior. -/
structure CmdBehavior where
  exitCode : Int
  duration : Nat
  stdout : String
  stderr : String
  deriving Repr, DecidableEq

/-- Assignment of behaviors to external commands. -/
abbrev CmdOracle := Cmd → CmdBehavior

/-- `subprocess.CompletedProcess` as consumed here: exit code and captured
output. -/
structure ExecutionResult where
  exitCode : Int
  stdout : String
  stderr : String
  deriving Repr, DecidableEq

/-- The exceptions the pipeline can raise: `subprocess.TimeoutExpired`,
`subprocess.CalledProcessError`, and Python `KeyError` from a missing
signing-config key. `main` catches all of them alike (build.py:415-417). -/
inductive PipelineError where
  | commandTimeout (cmd : Cmd) (timeout : Nat)
  | calledProcessError (cmd : Cmd) (exitCode : Int)
  | keyError (key : String)
  deriving Repr, DecidableEq

/-- `BuildManager.run_command` (build.py:44-66): runs the command via
`subprocess.run`; raises `TimeoutExpired` when the process outlives
`timeout`, raises `CalledProcessError` on a non-zero exit when `check`,
else returns the completed result. -/
def run_command (o : CmdOracle) (cmd : Cmd) (check : Bool) (timeout : Nat) :
    Except PipelineError ExecutionResult :=
  let b := o cmd
  if timeout < b.duration then
    Except.error (PipelineError.commandTimeout cmd timeout)
  else if check && b.exitCode ≠ 0 then
    Except.error (PipelineError.calledProcessError cmd b.exitCode)
  else
    Except.ok { exitCode := b.exitCode, stdout := b.stdout, stderr := b.stderr }

/-- One recorded subprocess invocation: the command and the environment
mapping handed to `subprocess.run` (build.py:50, `env=self.env`). -/
structure Invocation where
  cmd : Cmd
  env : List (String × String)
  deriving Repr, DecidableEq

/-- The observable outcome of a pipeline fragment: the invocations it
performed, in order, and the exception (if any) it ended with. -/
structure Run where
  invs : List Invocation
  err : Option PipelineError
  deriving Repr, DecidableEq

/-- A fragment that performs no invocation and succeeds. -/
def Run.pass : Run := { invs := [], err := none }

/-- A fragment that raises `e` before performing any invocation. -/
def Run.raise (e : PipelineError) : Run := { invs := [], err := some e }

/-- Sequential composition: Python exceptions short-circuit, so the second
fragment executes only when the first raised nothing. -/
def Run.seq (a b : Run) : Run :=
  match a.err with
  | some _ => a
  | none => { invs := a.invs ++ b.invs, err := b.err }

/-- One `self.run_command(cmd)` call inside a stage: every stage uses the
defaults `check=True, timeout=3600` and the manager's environment. -/
def step (o : CmdOracle) (env : List (String × String)) (cmd : Cmd) : Run :=
  match run_command o cmd true 3600 with
  | Except.ok _ => { invs := [⟨cmd, env⟩], err := none }
  | Except.error e => { invs := [⟨cmd, env⟩], err := some e }

/-- The `conan install` argument vector (build.py:90-102), including the
Release-only static-linking options. -/
def conanInstallCmd (c : BuildConfiguration) (root : String) : Cmd :=
  ["conan", "install", ".",
   "--profile=" ++ c.conanProfile,
   "--build=missing",
   "--settings=build_type=" ++ c.build_type,
   "--output-folder=" ++ c.buildDir root] ++
  (if c.build_type = "Release" then
    ["--options=*:shared=False", "--options=*:static_runtime=True"]
   else [])

/-- `BuildManager.install_dependencies` (build.py:75-104): ensures the
Conan profile file exists (writing it only when absent), then invokes
`conan install`. Returns the updated profile store, whether a profile file
was written, and the command outcome. -/
def install_dependencies (o : CmdOracle) (env : List (String × String))
    (c : BuildConfiguration) (root : String) (fs : ProfileStore) :
    ProfileStore × Bool × Run :=
  if (dictGet fs.profiles c.conanProfile).isSome then
    (fs, false, step o env (conanInstallCmd c root))
  else
    (create_conan_profile c fs, true, step o env (conanInstallCmd c root))

/-- The `cmake` configure argument vector (build.py:146-170), with the
Release testing switch and per-OS generator selection. -/
def cmakeConfigureCmd (c : BuildConfiguration) (root : String) : Cmd :=
  ["cmake", "-S", root, "-B", c.buildDir root,
   "-DCMAKE_BUILD_TYPE=" ++ c.build_type,
   "-DCMAKE_EXPORT_COMPILE_COMMANDS=ON",
   "-DCMAKE_TOOLCHAIN_FILE=" ++ c.buildDir root ++ "/conan_toolchain.cmake"] ++
  (if c.build_type = "Release" then ["-DENABLE_TESTING=OFF"] else []) ++
  (if c.target_os = "windows" then
    ["-G", "Visual Studio 17 2022",
     "-A", if c.arch = "x86_64" then "x64" else "ARM64"]
   else if c.target_os = "macos" then
    ["-G", "Xcode", "-DCMAKE_OSX_DEPLOYMENT_TARGET=11.0"]
   else [])

/-- `BuildManager.configure_cmake` (build.py:142-172). -/
def configure_cmake (o : CmdOracle) (env : List (String × String))
    (c : BuildConfiguration) (root : String) : Run :=
  step o env (cmakeConfigureCmd c root)

/-- The `cmake --build` argument vector (build.py:178-182). -/
def cmakeBuildCmd (c : BuildConfiguration) (root : String) : Cmd :=
  ["cmake", "--build", c.buildDir root, "--config", c.build_type, "--parallel"]

/-- `BuildManager.build_application` (build.py:174-184). -/
def build_application (o : CmdOracle) (env : List (String × String))
    (c : BuildConfiguration) (root : String) : Run :=
  step o env (cmakeBuildCmd c root)

/-- The `ctest` argument vector (build.py:354-359). -/
def ctestCmd (c : BuildConfiguration) (root : String) : Cmd :=
  ["ctest", "--test-dir", c.buildDir root, "--output-on-failure", "--parallel"]

/-- `BuildManager.run_tests` (build.py:346-366): returns immediately when
`build_type == "Release"`, else runs `ctest` (a failure is printed and
re-raised, i.e. propagated unchanged). -/
def run_tests (o : CmdOracle) (env : List (String × String))
    (c : BuildConfiguration) (root : String) : Run :=
  if c.build_type = "Release" then Run.pass
  else step o env (ctestCmd c root)

/-- The application-bundle path (build.py:201). -/
def appPath (c : BuildConfiguration) (root : String) : String :=
  c.buildDir root ++ "/src/MurmurDesktopApp.app"

/-- The disk-image path (build.py:214). -/
def dmgPath (c : BuildConfiguration) (root : String) : String :=
  c.buildDir root ++ "/MurmurDesktop-" ++ c.arch ++ ".dmg"

/-- The app-bundle `codesign` argument vector (build.py:203-210). -/
def codesignAppCmd (identity root app : String) : Cmd :=
  ["codesign", "--sign", identity,
   "--entitlements", root ++ "/packaging/macos/entitlements.plist",
   "--options", "runtime", "--timestamp", "--deep", "--force", app]

/-- The `hdiutil create` argument vector (build.py:215-220). -/
def createDmgCmd (app dmg : String) : Cmd :=
  ["hdiutil", "create", "-volname", "Murmur Desktop",
   "-srcfolder", app, "-ov", "-format", "UDZO", dmg]

/-- The disk-image `codesign` argument vector (build.py:224-228). -/
def codesignDmgCmd (identity dmg : String) : Cmd :=
  ["codesign", "--sign", identity, "--timestamp", dmg]

/-- The `notarytool submit` argument vector (build.py:239-245). -/
def notarizeCmd (dmg appleId password teamId : String) : Cmd :=
  ["xcrun", "notarytool", "submit", dmg,
   "--apple-id", appleId, "--password", password, "--team-id", teamId,
   "--wait"]

/-- The `stapler staple` argument vector (build.py:249). -/
def stapleCmd (dmg : String) : Cmd :=
  ["xcrun", "stapler", "staple", dmg]

/-- `BuildManager.notarize_macos_app` (build.py:235-250): builds the
`notarytool` command — reading `apple_id`, `app_password` and `team_id`
from the signing config, each read raising `KeyError` when absent — runs
it, then runs `stapler staple`. -/
def notarize_macos_app (o : CmdOracle) (env : List (String × String))
    (dmg : String) (sc : List (String × String)) : Run :=
  match dictGet sc "apple_id" with
  | none => Run.raise (PipelineError.keyError "apple_id")
  | some appleId =>
    match dictGet sc "app_password" with
    | none => Run.raise (PipelineError.keyError "app_password")
    | some password =>
      match dictGet sc "team_id" with
      | none => Run.raise (PipelineError.keyError "team_id")
      | some teamId =>
        Run.seq (step o env (notarizeCmd dmg appleId password teamId))
          (step o env (stapleCmd dmg))

/-- `BuildManager.sign_macos_app` (build.py:199-233): sign the app bundle
(reading `identity`, `KeyError` when absent), create the disk image, sign
the disk image, then notarize only when both `apple_id` and `app_password`
are keys of the signing config (`team_id` is not consulted by this gate). -/
def sign_macos_app (o : CmdOracle) (env : List (String × String))
    (c : BuildConfiguration) (root : String)
    (sc : List (String × String)) : Run :=
  match dictGet sc "identity" with
  | none => Run.raise (PipelineError.keyError "identity")
  | some identity =>
    Run.seq (step o env (codesignAppCmd identity root (appPath c root)))
      (Run.seq (step o env (createDmgCmd (appPath c root) (dmgPath c root)))
        (Run.seq (step o env (codesignDmgCmd identity (dmgPath c root)))
          (if hasKey sc "apple_id" && hasKey sc "app_password" then
            notarize_macos_app o env (dmgPath c root) sc
           else Run.pass)))

/-- The `signtool` argument vector (build.py:256-263). -/
def signtoolCmd (certPath certPassword exe : String) : Cmd :=
  ["signtool", "sign", "/f", certPath, "/p", certPassword,
   "/t", "http://timestamp.digicert.com", "/v", exe]

/-- `BuildManager.sign_windows_app` (build.py:252-265): reads
`certificate_path` and `certificate_password` (each a `KeyError` when
absent) and runs `signtool`. -/
def sign_windows_app (o : CmdOracle) (env : List (String × String))
    (c : BuildConfiguration) (root : String)
    (sc : List (String × String)) : Run :=
  match dictGet sc "certificate_path" with
  | none => Run.raise (PipelineError.keyError "certificate_path")
  | some certPath =>
    match dictGet sc "certificate_password" with
    | none => Run.raise (PipelineError.keyError "certificate_password")
    | some certPassword =>
      step o env
        (signtoolCmd certPath certPassword
          (c.buildDir root ++ "/src/MurmurDesktop.exe"))

/-- `BuildManager.sign_application` (build.py:186-197): skips when no
signing config is supplied; otherwise branches on `target_os == "darwin"`
(note: the literal is `"darwin"`, not the CLI value `"macos"`) and
`target_os == "windows"`; any other value falls through doing nothing. -/
def sign_application (o : CmdOracle) (env : List (String × String))
    (c : BuildConfiguration) (root : String)
    (sc : Option (List (String × String))) : Run :=
  match sc with
  | none => Run.pass
  | some s =>
    if c.target_os = "darwin" then sign_macos_app o env c root s
    else if c.target_os = "windows" then sign_windows_app o env c root s
    else Run.pass

/-- The `makensis` argument vector (build.py:281-285); `version` stands for
`get_version()`, which parses the repository's `CMakeLists.txt` (a file
outside this model, so the parsed version string is an input). -/
def makensisCmd (root version : String) : Cmd :=
  ["makensis", "/DVERSION=" ++ version,
   root ++ "/packaging/windows/murmur.nsi"]

/-- The `cpack` argument vector (build.py:292-296). -/
def cpackCmd (c : BuildConfiguration) (root : String) : Cmd :=
  ["cpack", "-G", "DEB;RPM", "-B", c.buildDir root ++ "/packages"]

/-- The `linuxdeploy` argument vector (build.py:326-330). -/
def linuxdeployCmd (c : BuildConfiguration) (root : String) : Cmd :=
  ["linuxdeploy", "--appdir", c.buildDir root ++ "/MurmurDesktop.AppDir",
   "--output", "appimage"]

/-- `BuildManager.create_package` (build.py:267-332): NSIS installer on
Windows; on Linux `cpack`, then `linuxdeploy` only when
`shutil.which("linuxdeploy")` finds it (`deployAvailable`); nothing on any
other OS (the macOS disk image was produced during signing). The AppImage
staging file copies (build.py:311-324) touch only the build directory and
are not observable in this model. -/
def create_package (o : CmdOracle) (env : List (String × String))
    (c : BuildConfiguration) (root version : String)
    (deployAvailable : Bool) : Run :=
  if c.target_os = "windows" then
    step o env (makensisCmd root version)
  else if c.target_os = "linux" then
    Run.seq (step o env (cpackCmd c root))
      (if deployAvailable then step o env (linuxdeployCmd c root)
       else Run.pass)
  else Run.pass

/-- The parsed command-line flags of `main` (build.py:369-385):
`--target-os` and `--arch` are optional with fixed choices, `--build-type`
defaults to `"Release"`, and `sign` holds the already-loaded JSON signing
config when `--sign` was given. -/
structure Args where
  target_os : Option String
  arch : Option String
  build_type : String
  clean : Bool
  test : Bool
  sign : Option (List (String × String))
  package : Bool
  deriving Repr, DecidableEq

/-- The host state `main` runs against: the host OS and machine names, the
per-user Conan profile store, the process environment (`os.environ`), the
version string `get_version()` would parse, and whether `linuxdeploy` is
on the `PATH`. -/
structure Host where
  hostOS : String
  hostMachine : String
  environ : List (String × String)
  profiles : ProfileStore
  version : String
  deployAvailable : Bool
  deriving Repr, DecidableEq

/-- The outcome of a `main` run: the process exit code, every subprocess
invocation in order, the final profile store, and the host environment as
left behind (no statement in build.py assigns to `os.environ`, so the
pipeline hands it back unchanged; `setup_environment` works on a copy). -/
structure MainResult where
  exitCode : Nat
  invs : List Invocation
  profiles : ProfileStore
  environ : List (String × String)
  deriving Repr, DecidableEq

/-- `main` (build.py:368-417): resolve the configuration, build the
manager's environment once, run install → configure → build → (tests when
`--test`) → (signing when `--sign`) → (packaging when `--package`), each
exception aborting the rest; exit code 1 on any exception, 0 otherwise.
`clean_build` (build.py:68-73) only removes/creates the build directory,
which this model does not observe. -/
def main_run (o : CmdOracle) (h : Host) (args : Args) (root : String) :
    MainResult :=
  let c := mkBuildConfiguration h.hostOS h.hostMachine
    args.target_os args.arch args.build_type
  let env := setup_environment c h.environ
  let inst := install_dependencies o env c root h.profiles
  let r := Run.seq inst.2.2
    (Run.seq (configure_cmake o env c root)
      (Run.seq (build_application o env c root)
        (Run.seq (if args.test then run_tests o env c root else Run.pass)
          (Run.seq (sign_application o env c root args.sign)
            (if args.package then
              create_package o env c root h.version h.deployAvailable
             else Run.pass)))))
  { exitCode := if r.err.isSome then 1 else 0,
    invs := r.invs,
    profiles := inst.1,
    environ := h.environ }

/-- The `--target-os` choices of the CLI (build.py:370). -/
def validOSChoices : List String := ["windows", "macos", "linux"]

/-- The `--arch` choices of the CLI (build.py:372). -/
def validArchChoices : List String := ["x86_64", "armv8", "universal"]

/-- The `--build-type` choices of the CLI (build.py:374). -/
def validTypeChoices : List String := ["Debug", "Release"]

/-- A configuration whose components come from the CLI's fixed choice
sets. -/
abbrev ValidTriple (c : BuildConfiguration) : Prop :=
  c.target_os ∈ validOSChoices ∧ c.arch ∈ validArchChoices ∧
    c.build_type ∈ validTypeChoices

/-- All 18 configurations with components from the CLI choice sets. -/
def allValidTriples : List BuildConfiguration :=
  (validOSChoices.map (fun o =>
    (validArchChoices.map (fun a =>
      (validTypeChoices.map (fun t =>
        BuildConfiguration.mk o a t)))))).flatten.flatten

/-- The commands of a macOS signing run, in invocation order. -/
def signTrace (o : CmdOracle) (env : List (String × String))
    (c : BuildConfiguration) (root : String)
    (sc : List (String × String)) : List Cmd :=
  (sign_macos_app o env c root sc).invs.map Invocation.cmd

/-- `a` occurs strictly before `b` in `l`. -/
def appearsBefore (l : List Cmd) (a b : Cmd) : Prop :=
  ∃ i j, i < j ∧ l.get? i = some a ∧ l.get? j = some b

/-- A pipeline fragment halts on timeouts: any of its invocations whose
process outlives the default 3600 s timeout is necessarily its last
invocation, and the fragment ends with that command's timeout error
(build.py:59-61 re-raises `TimeoutExpired`, so nothing after it runs). -/
def timeoutHalts (o : CmdOracle) (r : Run) : Prop :=
  ∀ (i : Nat) (inv : Invocation), r.invs.get? i = some inv →
    3600 < (o inv.cmd).duration →
    i = r.invs.length - 1 ∧
    r.err = some (PipelineError.commandTimeout inv.cmd 3600)

/-- Concrete test fixture: every external command succeeds instantly. -/
def allOkOracle : CmdOracle := fun _ => ⟨0, 0, "", ""⟩

/-- Concrete test fixture: `conan` never finishes within the default
timeout; every other command succeeds instantly. -/
def slowConanOracle : CmdOracle := fun cmd =>
  if cmd.head? = some "conan" then ⟨0, 4000, "", ""⟩ else ⟨0, 0, "", ""⟩

/-- Concrete test fixture: `conan` exits with code 1; every other command
succeeds instantly. -/
def failConanOracle : CmdOracle := fun cmd =>
  if cmd.head? = some "conan" then ⟨1, 0, "", ""⟩ else ⟨0, 0, "", ""⟩

/-- Concrete test fixture: `cpack` — a late, packaging-stage command —
never finishes within the default timeout; every other command succeeds
instantly. -/
def slowCpackOracle : CmdOracle := fun cmd =>
  if cmd.head? = some "cpack" then ⟨0, 4000, "", ""⟩ else ⟨0, 0, "", ""⟩

/-- Concrete test fixture: a configuration as resolved on a macOS host
with no `--target-os` flag (`platform.system().lower() = "darwin"`). -/
def darwinCfg : BuildConfiguration := ⟨"darwin", "x86_64", "Release"⟩

/-- Concrete test fixture: a signing config with identity and Apple-ID
credentials but no `team_id`. -/
def scMissingTeam : List (String × String) :=
  [("identity", "Developer ID"), ("apple_id", "dev@example.com"),
   ("app_password", "secret")]

/-- Concrete test fixture: a complete macOS signing config. -/
def scFullConfig : List (String × String) :=
  [("identity", "Developer ID"), ("apple_id", "dev@example.com"),
   ("app_password", "secret"), ("team_id", "TEAM01")]

/-- Concrete test fixture: a Linux host whose profile store is empty. -/
def linuxHost : Host :=
  ⟨"linux", "x86_64", [("PATH", "/usr/bin")], ⟨[]⟩, "1.0.0", true⟩

/-- Concrete test fixture: an explicit `(linux, x86_64, Release)` run with
`--test` and `--package`. -/
def linuxArgs : Args :=
  ⟨some "linux", some "x86_64", "Release", false, true, none, true⟩

/-! ## Association-list lemmas -/

theorem dictGet_odSet_self (d : List (String × String)) (k v : String) :
    dictGet (odSet d k v) k = some v := by
  induction d with
  | nil => simp [odSet, dictGet]
  | cons e tl ih =>
    by_cases h : e.1 = k <;> simp [odSet, dictGet, h, ih]

theorem dictGet_odSet_ne (d : List (String × String)) (k k' v : String)
    (h : k ≠ k') : dictGet (odSet d k v) k' = dictGet d k' := by
  induction d with
  | nil => simp [odSet, dictGet, h]
  | cons e tl ih =>
    by_cases hh : e.1 = k <;> simp [odSet, dictGet, hh, ih, h]

theorem dictGet_odDel_ne (d : List (String × String)) (k k' : String)
    (h : k ≠ k') :
    dictGet (odDel d k) k' = dictGet d k' := by
  induction d with
  | nil => simp [odDel]
  | cons e tl ih =>
    by_cases hh : e.1 = k
    · have hk' : e.1 ≠ k' := fun hc => h (hh ▸ hc)
      simp [odDel, dictGet, hh, hk', h]
    · by_cases hk : e.1 = k' <;>
        simp [odDel, dictGet, hh, hk, ih, Ne.symm h]

/-! ## Run-combinator and command lemmas -/

theorem run_seq_pass_left (b : Run) : Run.seq Run.pass b = b := by
  simp [Run.seq, Run.pass]

theorem run_seq_err {a : Run} (b : Run) {e : PipelineError}
    (h : a.err = some e) : Run.seq a b = a := by
  simp [Run.seq, h]

theorem step_ok (o : CmdOracle) (env : List (String × String)) (cmd : Cmd)
    (h1 : (o cmd).duration ≤ 3600) (h2 : (o cmd).exitCode = 0) :
    step o env cmd = { invs := [⟨cmd, env⟩], err := none } := by
  simp [step, run_command, Nat.not_lt.mpr h1, h2]

theorem string_append_cancel_left {a b c : String} (h : a ++ b = a ++ c) :
    b = c := by
  have hd : (a ++ b).data = (a ++ c).data := by rw [h]
  simp only [String.data_append] at hd
  exact String.ext (List.append_cancel_left hd)

/-! ## Valid-triple lemmas -/

theorem mem_allValidTriples (c : BuildConfiguration) (h : ValidTriple c) :
    c ∈ allValidTriples := by
  obtain ⟨h1, h2, h3⟩ := h
  obtain ⟨o, a, t⟩ := c
  simp only [validOSChoices, validArchChoices, validTypeChoices,
    List.mem_cons, List.not_mem_nil, or_false] at h1 h2 h3
  rcases h1 with rfl | rfl | rfl <;> rcases h2 with rfl | rfl | rfl <;>
    rcases h3 with rfl | rfl <;> decide

set_option maxHeartbeats 1000000 in
theorem buildDirName_inj_on_valid :
    ∀ c1 ∈ allValidTriples, ∀ c2 ∈ allValidTriples,
      c1.buildDirName = c2.buildDirName → c1 = c2 := by decide

set_option maxHeartbeats 1000000 in
theorem conanProfile_det_on_valid :
    ∀ c1 ∈ allValidTriples, ∀ c2 ∈ allValidTriples,
      c1.conanProfile = c2.conanProfile →
        c1.target_os = c2.target_os ∧ c1.arch = c2.arch := by decide

/-! ## Claims -/

/-- C3 counterexample: the Debug and Release triples over
`(linux, x86_64)` are distinct valid triples with the same profile name —
`conan_profile = f"{target_os}-{arch}"` does not mention the build type. -/
theorem c3_profile_name_collision :
    (BuildConfiguration.mk "linux" "x86_64" "Debug" ≠
      BuildConfiguration.mk "linux" "x86_64" "Release") ∧
    ValidTriple (BuildConfiguration.mk "linux" "x86_64" "Debug") ∧
    ValidTriple (BuildConfiguration.mk "linux" "x86_64" "Release") ∧
    (BuildConfiguration.mk "linux" "x86_64" "Debug").conanProfile =
      (BuildConfiguration.mk "linux" "x86_64" "Release").conanProfile := by
  refine ⟨by decide, by decide, by decide, rfl⟩

/-- C3 (amended): configuration resolution is pure and deterministic,
`buildDir` is `root/build/{targetOS}-{arch}-{buildType}`, and distinct
valid triples yield distinct `buildDir`; but `profileName` is determined
by (and only determines) the `(targetOS, arch)` pair — triples differing
only in the build type share a profile name. -/
theorem c3_config_resolution_amended (root : String)
    (c1 c2 : BuildConfiguration) (h1 : ValidTriple c1) (h2 : ValidTriple c2) :
    c1.buildDir root =
      root ++ "/build/" ++
        (c1.target_os ++ "-" ++ c1.arch ++ "-" ++ c1.build_type) ∧
    (c1 = c2 →
      c1.buildDir root = c2.buildDir root ∧
        c1.conanProfile = c2.conanProfile) ∧
    (c1.buildDir root = c2.buildDir root → c1 = c2) ∧
    (c1.conanProfile = c2.conanProfile ↔
      c1.target_os = c2.target_os ∧ c1.arch = c2.arch) := by
  refine ⟨rfl, fun h => by rw [h]; exact ⟨rfl, rfl⟩, fun h => ?_, ?_, ?_⟩
  · exact buildDirName_inj_on_valid c1 (mem_allValidTriples c1 h1) c2
      (mem_allValidTriples c2 h2) (string_append_cancel_left h)
  · exact fun h => conanProfile_det_on_valid c1 (mem_allValidTriples c1 h1)
      c2 (mem_allValidTriples c2 h2) h
  · rintro ⟨ho, ha⟩
    simp [BuildConfiguration.conanProfile, ho, ha]

/-- C3 witness: the amended theorem applied to the two colliding concrete
triples. -/
theorem c3_config_resolution_amended_witness :
    ((BuildConfiguration.mk "linux" "x86_64" "Debug").conanProfile =
        (BuildConfiguration.mk "linux" "x86_64" "Release").conanProfile ↔
      ("linux" : String) = "linux" ∧ ("x86_64" : String) = "x86_64") ∧
    ((BuildConfiguration.mk "linux" "x86_64" "Debug").buildDir "/repo" =
        (BuildConfiguration.mk "linux" "x86_64" "Release").buildDir "/repo" →
      BuildConfiguration.mk "linux" "x86_64" "Debug" =
        BuildConfiguration.mk "linux" "x86_64" "Release") :=
  ⟨(c3_config_resolution_amended "/repo" _ _ (by decide) (by decide)).2.2.2,
   (c3_config_resolution_amended "/repo" _ _ (by decide) (by decide)).2.2.1⟩

/-- C4: with `buildType = Release` the Tester stage performs no external
invocation (`run_tests` returns before building the `ctest` command), and
an entire `main` run behaves identically whether or not `--test` was
passed. -/
theorem c4_release_skips_tester (o : CmdOracle) (h : Host) (args : Args)
    (root : String) (hrel : args.build_type = "Release") :
    (∀ env, run_tests o env
      (mkBuildConfiguration h.hostOS h.hostMachine args.target_os args.arch
        args.build_type) root = Run.pass) ∧
    main_run o h { args with test := true } root =
      main_run o h { args with test := false } root := by
  constructor
  · intro env
    simp [run_tests, mkBuildConfiguration, hrel]
  · simp [main_run, run_tests, mkBuildConfiguration, hrel]

/-- C4 witness: a Release run on the Linux fixture with `--test` both set
and unset. -/
theorem c4_release_skips_tester_witness :
    run_tests allOkOracle []
      (mkBuildConfiguration linuxHost.hostOS linuxHost.hostMachine
        linuxArgs.target_os linuxArgs.arch linuxArgs.build_type) "/repo" =
      Run.pass ∧
    main_run allOkOracle linuxHost { linuxArgs with test := true } "/repo" =
      main_run allOkOracle linuxHost { linuxArgs with test := false }
        "/repo" :=
  ⟨(c4_release_skips_tester allOkOracle linuxHost linuxArgs "/repo" rfl).1 [],
   (c4_release_skips_tester allOkOracle linuxHost linuxArgs "/repo" rfl).2⟩

/-- C5: ensuring the Conan profile is idempotent — after one
`install_dependencies` call the profile file exists, so a second call with
the same configuration performs no write and leaves the profile store
unchanged. -/
theorem c5_ensure_profile_idempotent (o : CmdOracle)
    (env : List (String × String)) (c : BuildConfiguration) (root : String)
    (fs : ProfileStore) :
    (install_dependencies o env c root
        (install_dependencies o env c root fs).1).2.1 = false ∧
    (install_dependencies o env c root
        (install_dependencies o env c root fs).1).1 =
      (install_dependencies o env c root fs).1 := by
  by_cases h : (dictGet fs.profiles c.conanProfile).isSome
  · simp [install_dependencies, h]
  · simp [install_dependencies, h, create_conan_profile, dictGet_odSet_self]

/-- The profile's `arch` setting: `x86_64` when the configured arch is
`universal`, the configured arch otherwise (build.py:113); the macOS and
Windows overrides never touch the `arch` key. -/
theorem profileSettings_arch (c : BuildConfiguration) :
    dictGet (profileSettings c) "arch" =
      some (if c.arch = "universal" then "x86_64" else c.arch) := by
  by_cases h1 : c.target_os = "macos"
  · simp [profileSettings, h1, dictGet_odSet_ne, dictGet]
  · by_cases h2 : c.target_os = "windows"
    · simp [profileSettings, h1, h2, dictGet_odSet_ne, dictGet_odDel_ne,
        dictGet]
    · simp [profileSettings, h1, h2, dictGet]

/-- C10: the generated profile maps `arch = universal` to the setting
`x86_64` and any other arch to itself, while the configuration keeps
`universal` verbatim — the build-directory name and the profile name both
use the literal `universal`. -/
theorem c10_universal_profile_arch (c : BuildConfiguration)
    (hostOS hostMachine : String) (tos : Option String) (bt : String) :
    (c.arch = "universal" →
      dictGet (profileSettings c) "arch" = some "x86_64") ∧
    (c.arch ≠ "universal" →
      dictGet (profileSettings c) "arch" = some c.arch) ∧
    (mkBuildConfiguration hostOS hostMachine tos (some "universal") bt).arch
      = "universal" ∧
    (mkBuildConfiguration hostOS hostMachine tos
        (some "universal") bt).buildDirName =
      (tos.getD hostOS) ++ "-" ++ "universal" ++ "-" ++ bt ∧
    (mkBuildConfiguration hostOS hostMachine tos
        (some "universal") bt).conanProfile =
      (tos.getD hostOS) ++ "-" ++ "universal" := by
  refine ⟨fun h => by rw [profileSettings_arch, if_pos h],
    fun h => by rw [profileSettings_arch, if_neg h], ?_, ?_, ?_⟩ <;>
    simp [mkBuildConfiguration, BuildConfiguration.buildDirName,
      BuildConfiguration.conanProfile]

/-- C10 witness: the universal Linux triple gets profile arch `x86_64`;
the armv8 Linux triple keeps its own arch. -/
theorem c10_universal_profile_arch_witness :
    dictGet (profileSettings ⟨"linux", "universal", "Release"⟩) "arch" =
      some "x86_64" ∧
    dictGet (profileSettings ⟨"linux", "armv8", "Release"⟩) "arch" =
      some "armv8" :=
  ⟨(c10_universal_profile_arch ⟨"linux", "universal", "Release"⟩ "linux"
      "x86_64" none "Release").1 rfl,
   (c10_universal_profile_arch ⟨"linux", "armv8", "Release"⟩ "linux"
      "x86_64" none "Release").2.1 (by decide)⟩

/-- C1 (code evaluation at the failing input): `sign_application` branches
on `target_os == "darwin"`, never `"macos"`, so a run with the CLI value
`targetOS = macos` and a signing config invokes no signing command at all;
the codesign → hdiutil → codesign sequence the claim describes is produced
only for a configuration whose `target_os` is the host-default string
`"darwin"`. -/
theorem c1_macos_target_never_signs :
    (∀ (o : CmdOracle) (env : List (String × String))
      (arch build_type root : String) (sc : List (String × String)),
      sign_application o env ⟨"macos", arch, build_type⟩ root (some sc) =
        Run.pass) ∧
    signTrace allOkOracle [] darwinCfg "/repo" scFullConfig =
      [codesignAppCmd "Developer ID" "/repo" (appPath darwinCfg "/repo"),
       createDmgCmd (appPath darwinCfg "/repo") (dmgPath darwinCfg "/repo"),
       codesignDmgCmd "Developer ID" (dmgPath darwinCfg "/repo"),
       notarizeCmd (dmgPath darwinCfg "/repo") "dev@example.com" "secret"
         "TEAM01",
       stapleCmd (dmgPath darwinCfg "/repo")] := by
  constructor
  · intro o env arch build_type root sc
    simp [sign_application]
  · decide

/-- C2 counterexample: a signing config holding `identity`, `apple_id` and
`app_password` but no `team_id` — not all three credentials are present,
so the claim requires the notarization sub-stage to be skipped without
error; instead the macOS signing run ends in `KeyError("team_id")`. -/
theorem c2_team_id_absent_raises :
    hasKey scMissingTeam "apple_id" = true ∧
    hasKey scMissingTeam "app_password" = true ∧
    dictGet scMissingTeam "team_id" = none ∧
    (sign_macos_app allOkOracle [] darwinCfg "/repo" scMissingTeam).err =
      some (PipelineError.keyError "team_id") := by decide

/-- C2 (amended): the notarization gate tests only `apple_id` and
`app_password`. When either is absent the sub-stage is skipped without
error and signing stops after the three image-signing commands; when both
are present but `team_id` is absent building the `notarytool` command
raises `KeyError("team_id")` and the run fails; when all three are present
the submission and the staple both run. -/
theorem c2_notarization_gate_amended (o : CmdOracle)
    (env : List (String × String)) (c : BuildConfiguration)
    (root identity : String) (sc : List (String × String))
    (hid : dictGet sc "identity" = some identity)
    (hok : ∀ cmd, (o cmd).duration ≤ 3600 ∧ (o cmd).exitCode = 0) :
    ((hasKey sc "apple_id" && hasKey sc "app_password") = false →
      (sign_macos_app o env c root sc).err = none ∧
      signTrace o env c root sc =
        [codesignAppCmd identity root (appPath c root),
         createDmgCmd (appPath c root) (dmgPath c root),
         codesignDmgCmd identity (dmgPath c root)]) ∧
    (hasKey sc "apple_id" = true → hasKey sc "app_password" = true →
      dictGet sc "team_id" = none →
      (sign_macos_app o env c root sc).err =
        some (PipelineError.keyError "team_id")) ∧
    (∀ appleId password teamId,
      dictGet sc "apple_id" = some appleId →
      dictGet sc "app_password" = some password →
      dictGet sc "team_id" = some teamId →
      (sign_macos_app o env c root sc).err = none ∧
      signTrace o env c root sc =
        [codesignAppCmd identity root (appPath c root),
         createDmgCmd (appPath c root) (dmgPath c root),
         codesignDmgCmd identity (dmgPath c root),
         notarizeCmd (dmgPath c root) appleId password teamId,
         stapleCmd (dmgPath c root)]) := by
  have hstep : ∀ cmd, step o env cmd = { invs := [⟨cmd, env⟩], err := none } :=
    fun cmd => step_ok o env cmd (hok cmd).1 (hok cmd).2
  refine ⟨?_, ?_, ?_⟩
  · intro hgate
    simp [signTrace, sign_macos_app, hid, hstep, hgate, Run.seq, Run.pass]
  · intro ha hp ht
    simp only [hasKey] at ha hp
    obtain ⟨a, ha'⟩ := Option.isSome_iff_exists.mp ha
    obtain ⟨p, hp'⟩ := Option.isSome_iff_exists.mp hp
    simp [sign_macos_app, notarize_macos_app, hid, hstep, hasKey, ha', hp',
      ht, Run.seq, Run.raise]
  · intro appleId password teamId ha hp ht
    simp [signTrace, sign_macos_app, notarize_macos_app, hid, hstep, hasKey,
      ha, hp, ht, Run.seq]

/-- C2 witness: the amended theorem applied to the full config (all five
commands run) and to the config missing only `team_id` (the run raises
`KeyError("team_id")`). -/
theorem c2_notarization_gate_amended_witness :
    ((sign_macos_app allOkOracle [] darwinCfg "/repo" scFullConfig).err =
        none ∧
      signTrace allOkOracle [] darwinCfg "/repo" scFullConfig =
        [codesignAppCmd "Developer ID" "/repo" (appPath darwinCfg "/repo"),
         createDmgCmd (appPath darwinCfg "/repo")
           (dmgPath darwinCfg "/repo"),
         codesignDmgCmd "Developer ID" (dmgPath darwinCfg "/repo"),
         notarizeCmd (dmgPath darwinCfg "/repo") "dev@example.com" "secret"
           "TEAM01",
         stapleCmd (dmgPath darwinCfg "/repo")]) ∧
    (sign_macos_app allOkOracle [] darwinCfg "/repo" scMissingTeam).err =
      some (PipelineError.keyError "team_id") :=
  ⟨(c2_notarization_gate_amended allOkOracle [] darwinCfg "/repo"
      "Developer ID" scFullConfig rfl
      (fun _ => ⟨Nat.zero_le 3600, rfl⟩)).2.2 "dev@example.com" "secret"
      "TEAM01" rfl rfl rfl,
   (c2_notarization_gate_amended allOkOracle [] darwinCfg "/repo"
      "Developer ID" scMissingTeam rfl
      (fun _ => ⟨Nat.zero_le 3600, rfl⟩)).2.1 (by decide) (by decide) rfl⟩

/-- C7: when `conan install` completes in time but exits non-zero, the
whole pipeline aborts immediately — no configure, build, test, sign or
package command is ever invoked and `main` exits with code 1. -/
theorem c7_install_failure_aborts_pipeline (o : CmdOracle) (h : Host)
    (args : Args) (root : String)
    (hdur : (o (conanInstallCmd (mkBuildConfiguration h.hostOS h.hostMachine
      args.target_os args.arch args.build_type) root)).duration ≤ 3600)
    (hexit : (o (conanInstallCmd (mkBuildConfiguration h.hostOS
      h.hostMachine args.target_os args.arch args.build_type)
        root)).exitCode ≠ 0) :
    (main_run o h args root).exitCode = 1 ∧
    (main_run o h args root).invs.map Invocation.cmd =
      [conanInstallCmd (mkBuildConfiguration h.hostOS h.hostMachine
        args.target_os args.arch args.build_type) root] := by
  have hstepE : ∀ env, step o env (conanInstallCmd
      (mkBuildConfiguration h.hostOS h.hostMachine args.target_os args.arch
        args.build_type) root) =
      { invs := [⟨conanInstallCmd (mkBuildConfiguration h.hostOS
          h.hostMachine args.target_os args.arch args.build_type) root,
          env⟩],
        err := some (PipelineError.calledProcessError (conanInstallCmd
          (mkBuildConfiguration h.hostOS h.hostMachine args.target_os
            args.arch args.build_type) root)
          ((o (conanInstallCmd (mkBuildConfiguration h.hostOS h.hostMachine
            args.target_os args.arch args.build_type) root)).exitCode)) }
      := by
    intro env
    simp [step, run_command, Nat.not_lt.mpr hdur, hexit]
  unfold main_run install_dependencies
  by_cases hp : (dictGet h.profiles.profiles
      (mkBuildConfiguration h.hostOS h.hostMachine args.target_os args.arch
        args.build_type).conanProfile).isSome <;>
    simp [hp, hstepE, Run.seq]

/-- C7 witness: the failing-`conan` oracle on the Linux fixture. -/
theorem c7_install_failure_aborts_pipeline_witness :
    (main_run failConanOracle linuxHost linuxArgs "/repo").exitCode = 1 ∧
    (main_run failConanOracle linuxHost linuxArgs "/repo").invs.map
        Invocation.cmd =
      [conanInstallCmd (mkBuildConfiguration "linux" "x86_64" (some "linux")
        (some "x86_64") "Release") "/repo"] :=
  c7_install_failure_aborts_pipeline failConanOracle linuxHost linuxArgs
    "/repo" (by decide) (by decide)

/-! ## Environment-frame lemmas: every invocation carries the manager's
environment, and the host environment is never touched -/

theorem step_env_eq (o : CmdOracle) (env : List (String × String))
    (cmd : Cmd) : ∀ inv ∈ (step o env cmd).invs, inv.env = env := by
  unfold step
  cases run_command o cmd true 3600 <;> simp

theorem seq_env_eq {env : List (String × String)} {a b : Run}
    (ha : ∀ inv ∈ a.invs, inv.env = env)
    (hb : ∀ inv ∈ b.invs, inv.env = env) :
    ∀ inv ∈ (Run.seq a b).invs, inv.env = env := by
  unfold Run.seq
  cases a.err with
  | some e => exact ha
  | none =>
    intro inv hm
    rcases List.mem_append.mp hm with h | h
    · exact ha inv h
    · exact hb inv h

theorem notarize_env_eq (o : CmdOracle) (env : List (String × String))
    (dmg : String) (sc : List (String × String)) :
    ∀ inv ∈ (notarize_macos_app o env dmg sc).invs, inv.env = env := by
  unfold notarize_macos_app
  cases dictGet sc "apple_id" with
  | none => simp [Run.raise]
  | some a =>
    cases dictGet sc "app_password" with
    | none => simp [Run.raise]
    | some p =>
      cases dictGet sc "team_id" with
      | none => simp [Run.raise]
      | some t => exact seq_env_eq (step_env_eq _ _ _) (step_env_eq _ _ _)

theorem sign_macos_env_eq (o : CmdOracle) (env : List (String × String))
    (c : BuildConfiguration) (root : String) (sc : List (String × String)) :
    ∀ inv ∈ (sign_macos_app o env c root sc).invs, inv.env = env := by
  unfold sign_macos_app
  cases dictGet sc "identity" with
  | none => simp [Run.raise]
  | some i =>
    refine seq_env_eq (step_env_eq _ _ _) (seq_env_eq (step_env_eq _ _ _)
      (seq_env_eq (step_env_eq _ _ _) ?_))
    split
    · exact notarize_env_eq _ _ _ _
    · simp [Run.pass]

theorem sign_windows_env_eq (o : CmdOracle) (env : List (String × String))
    (c : BuildConfiguration) (root : String) (sc : List (String × String)) :
    ∀ inv ∈ (sign_windows_app o env c root sc).invs, inv.env = env := by
  unfold sign_windows_app
  cases dictGet sc "certificate_path" with
  | none => simp [Run.raise]
  | some cp =>
    cases dictGet sc "certificate_password" with
    | none => simp [Run.raise]
    | some pw => exact step_env_eq _ _ _

theorem sign_application_env_eq (o : CmdOracle)
    (env : List (String × String)) (c : BuildConfiguration) (root : String)
    (sc : Option (List (String × String))) :
    ∀ inv ∈ (sign_application o env c root sc).invs, inv.env = env := by
  unfold sign_application
  split
  · simp [Run.pass]
  · split
    · exact sign_macos_env_eq _ _ _ _ _
    · split
      · exact sign_windows_env_eq _ _ _ _ _
      · simp [Run.pass]

theorem create_package_env_eq (o : CmdOracle)
    (env : List (String × String)) (c : BuildConfiguration)
    (root version : String) (deployAvailable : Bool) :
    ∀ inv ∈ (create_package o env c root version deployAvailable).invs,
      inv.env = env := by
  unfold create_package
  split
  · exact step_env_eq _ _ _
  · split
    · refine seq_env_eq (step_env_eq _ _ _) ?_
      split
      · exact step_env_eq _ _ _
      · simp [Run.pass]
    · simp [Run.pass]

theorem run_tests_env_eq (o : CmdOracle) (env : List (String × String))
    (c : BuildConfiguration) (root : String) :
    ∀ inv ∈ (run_tests o env c root).invs, inv.env = env := by
  unfold run_tests
  split
  · simp [Run.pass]
  · exact step_env_eq _ _ _

theorem install_env_eq (o : CmdOracle) (env : List (String × String))
    (c : BuildConfiguration) (root : String) (fs : ProfileStore) :
    ∀ inv ∈ (install_dependencies o env c root fs).2.2.invs,
      inv.env = env := by
  unfold install_dependencies
  split <;> exact step_env_eq _ _ _

/-- C8: the host process environment is a frame of the pipeline — a `main`
run hands `os.environ` back untouched, `setup_environment` changes its
copy only at the four toolchain keys, and every subprocess invocation of
the run receives exactly that copied-and-extended environment. -/
theorem c8_host_environ_unchanged (o : CmdOracle) (h : Host) (args : Args)
    (root k : String)
    (hk : k ≠ "CC" ∧ k ≠ "CXX" ∧ k ≠ "CMAKE_GENERATOR" ∧
      k ≠ "CMAKE_GENERATOR_PLATFORM") :
    (main_run o h args root).environ = h.environ ∧
    dictGet (setup_environment (mkBuildConfiguration h.hostOS h.hostMachine
      args.target_os args.arch args.build_type) h.environ) k =
      dictGet h.environ k ∧
    ∀ inv ∈ (main_run o h args root).invs,
      inv.env = setup_environment (mkBuildConfiguration h.hostOS
        h.hostMachine args.target_os args.arch args.build_type)
        h.environ := by
  obtain ⟨h1, h2, h3, h4⟩ := hk
  refine ⟨rfl, ?_, ?_⟩
  · unfold setup_environment
    split
    · rw [dictGet_odSet_ne _ _ _ _ (Ne.symm h4),
        dictGet_odSet_ne _ _ _ _ (Ne.symm h3)]
    · split
      · rfl
      · split
        · rw [dictGet_odSet_ne _ _ _ _ (Ne.symm h2),
            dictGet_odSet_ne _ _ _ _ (Ne.symm h1)]
        · rfl
  · simp only [main_run]
    refine seq_env_eq (install_env_eq _ _ _ _ _)
      (seq_env_eq (step_env_eq _ _ _) (seq_env_eq (step_env_eq _ _ _)
        (seq_env_eq ?_ (seq_env_eq (sign_application_env_eq _ _ _ _ _)
          ?_))))
    · split
      · exact run_tests_env_eq _ _ _ _
      · simp [Run.pass]
    · split
      · exact create_package_env_eq _ _ _ _ _ _
      · simp [Run.pass]

/-- C8 witness: the Linux fixture leaves `PATH` and the host environment
unchanged. -/
theorem c8_host_environ_unchanged_witness :
    (main_run allOkOracle linuxHost linuxArgs "/repo").environ =
      linuxHost.environ ∧
    dictGet (setup_environment (mkBuildConfiguration linuxHost.hostOS
      linuxHost.hostMachine linuxArgs.target_os linuxArgs.arch
      linuxArgs.build_type) linuxHost.environ) "PATH" =
      dictGet linuxHost.environ "PATH" :=
  ⟨(c8_host_environ_unchanged allOkOracle linuxHost linuxArgs "/repo"
      "PATH" (by decide)).1,
   (c8_host_environ_unchanged allOkOracle linuxHost linuxArgs "/repo"
      "PATH" (by decide)).2.1⟩

/-! ## Command-shape lemmas: the five macOS signing commands are pairwise
distinguishable whatever the configured strings are -/

theorem dmg_ne_app (i1 i2 r a d : String) :
    codesignDmgCmd i1 d ≠ codesignAppCmd i2 r a := by
  simp [codesignDmgCmd, codesignAppCmd]

theorem dmg_ne_create (i a d1 d2 : String) :
    codesignDmgCmd i d1 ≠ createDmgCmd a d2 := by
  simp [codesignDmgCmd, createDmgCmd]

theorem staple_ne_app (i r a d : String) :
    stapleCmd d ≠ codesignAppCmd i r a := by
  simp [stapleCmd, codesignAppCmd]

theorem staple_ne_create (a d1 d2 : String) :
    stapleCmd d1 ≠ createDmgCmd a d2 := by
  simp [stapleCmd, createDmgCmd]

theorem staple_ne_dmg (i d1 d2 : String) :
    stapleCmd d1 ≠ codesignDmgCmd i d2 := by
  simp [stapleCmd, codesignDmgCmd]

theorem staple_ne_notarize (d1 d2 a p t : String) :
    stapleCmd d1 ≠ notarizeCmd d2 a p t := by
  simp [stapleCmd, notarizeCmd]

theorem step_invs (o : CmdOracle) (env : List (String × String))
    (cmd : Cmd) : (step o env cmd).invs = [⟨cmd, env⟩] := by
  unfold step
  cases run_command o cmd true 3600 <;> rfl

theorem step_of_error {o : CmdOracle} {cmd : Cmd} {e : PipelineError}
    (env : List (String × String))
    (h : run_command o cmd true 3600 = Except.error e) :
    step o env cmd = { invs := [⟨cmd, env⟩], err := some e } := by
  simp [step, h]

theorem step_of_ok {o : CmdOracle} {cmd : Cmd} {r : ExecutionResult}
    (env : List (String × String))
    (h : run_command o cmd true 3600 = Except.ok r) :
    step o env cmd = { invs := [⟨cmd, env⟩], err := none } := by
  simp [step, h]

theorem run_seq_ok_left {a : Run} (b : Run) (h : a.err = none) :
    Run.seq a b = { invs := a.invs ++ b.invs, err := b.err } := by
  simp [Run.seq, h]

/-- C9: ordering invariant of the macOS signing path — whenever the
disk-image `codesign` command appears in the trace, the app-bundle
`codesign` command appears strictly before it and has succeeded; whenever
the `stapler` command appears, the `notarytool submit` command (with the
config's credentials) appears strictly before it and has succeeded. -/
theorem c9_signing_order_invariant (o : CmdOracle)
    (env : List (String × String)) (c : BuildConfiguration)
    (root identity : String) (sc : List (String × String))
    (hid : dictGet sc "identity" = some identity) :
    (codesignDmgCmd identity (dmgPath c root) ∈ signTrace o env c root sc →
      (∃ r, run_command o (codesignAppCmd identity root (appPath c root))
        true 3600 = Except.ok r) ∧
      appearsBefore (signTrace o env c root sc)
        (codesignAppCmd identity root (appPath c root))
        (codesignDmgCmd identity (dmgPath c root))) ∧
    (stapleCmd (dmgPath c root) ∈ signTrace o env c root sc →
      ∃ appleId password teamId,
        dictGet sc "apple_id" = some appleId ∧
        dictGet sc "app_password" = some password ∧
        dictGet sc "team_id" = some teamId ∧
        (∃ r, run_command o
          (notarizeCmd (dmgPath c root) appleId password teamId) true 3600 =
          Except.ok r) ∧
        appearsBefore (signTrace o env c root sc)
          (notarizeCmd (dmgPath c root) appleId password teamId)
          (stapleCmd (dmgPath c root))) := by
  unfold signTrace sign_macos_app
  simp only [hid]
  cases hA : run_command o (codesignAppCmd identity root (appPath c root))
      true 3600 with
  | error e =>
    rw [step_of_error env hA, run_seq_err _ rfl]
    simp [appearsBefore, dmg_ne_app, staple_ne_app]
  | ok rA =>
    rw [step_of_ok env hA, run_seq_ok_left _ rfl]
    cases hH : run_command o
        (createDmgCmd (appPath c root) (dmgPath c root)) true 3600 with
    | error e =>
      rw [step_of_error env hH, run_seq_err _ rfl]
      simp [appearsBefore, dmg_ne_app, dmg_ne_create, staple_ne_app,
        staple_ne_create]
    | ok rH =>
      rw [step_of_ok env hH, run_seq_ok_left _ rfl]
      cases hD : run_command o (codesignDmgCmd identity (dmgPath c root))
          true 3600 with
      | error e =>
        rw [step_of_error env hD, run_seq_err _ rfl]
        constructor
        · intro _
          refine ⟨⟨rA, rfl⟩, 0, 2, by omega, rfl, rfl⟩
        · simp [staple_ne_app, staple_ne_create, staple_ne_dmg]
      | ok rD =>
        rw [step_of_ok env hD, run_seq_ok_left _ rfl]
        by_cases hg : (hasKey sc "apple_id" && hasKey sc "app_password")
            = true
        · rw [if_pos hg]
          unfold notarize_macos_app
          cases ha : dictGet sc "apple_id" with
          | none =>
            constructor
            · intro _
              refine ⟨⟨rA, rfl⟩, 0, 2, by omega, rfl, rfl⟩
            · simp [Run.raise, staple_ne_app, staple_ne_create,
                staple_ne_dmg]
          | some appleId =>
            cases hp : dictGet sc "app_password" with
            | none =>
              constructor
              · intro _
                refine ⟨⟨rA, rfl⟩, 0, 2, by omega, rfl, rfl⟩
              · simp [Run.raise, staple_ne_app, staple_ne_create,
                  staple_ne_dmg]
            | some password =>
              cases ht : dictGet sc "team_id" with
              | none =>
                constructor
                · intro _
                  refine ⟨⟨rA, rfl⟩, 0, 2, by omega, rfl, rfl⟩
                · simp [Run.raise, staple_ne_app, staple_ne_create,
                    staple_ne_dmg]
              | some teamId =>
                dsimp only
                cases hN : run_command o
                    (notarizeCmd (dmgPath c root) appleId password teamId)
                    true 3600 with
                | error e =>
                  rw [step_of_error env hN, run_seq_err _ rfl]
                  constructor
                  · intro _
                    refine ⟨⟨rA, rfl⟩, 0, 2, by omega, rfl, rfl⟩
                  · simp [staple_ne_app, staple_ne_create, staple_ne_dmg,
                      staple_ne_notarize]
                | ok rN =>
                  rw [step_of_ok env hN, run_seq_ok_left _ rfl]
                  simp only [step_invs]
                  constructor
                  · intro _
                    refine ⟨⟨rA, rfl⟩, 0, 2, by omega, rfl, rfl⟩
                  · intro _
                    exact ⟨appleId, password, teamId, rfl, rfl, rfl,
                      ⟨rN, hN⟩, 3, 4, by omega, rfl, rfl⟩
        · rw [if_neg hg]
          constructor
          · intro _
            refine ⟨⟨rA, rfl⟩, 0, 2, by omega, rfl, rfl⟩
          · simp [Run.pass, staple_ne_app, staple_ne_create, staple_ne_dmg]

/-- C9 witness: the full-credential fixture run — the disk-image signing
and stapling commands both appear, with the required predecessors
succeeding before them. -/
theorem c9_signing_order_invariant_witness :
    appearsBefore (signTrace allOkOracle [] darwinCfg "/repo" scFullConfig)
      (codesignAppCmd "Developer ID" "/repo" (appPath darwinCfg "/repo"))
      (codesignDmgCmd "Developer ID" (dmgPath darwinCfg "/repo")) ∧
    appearsBefore (signTrace allOkOracle [] darwinCfg "/repo" scFullConfig)
      (notarizeCmd (dmgPath darwinCfg "/repo") "dev@example.com" "secret"
        "TEAM01")
      (stapleCmd (dmgPath darwinCfg "/repo")) := by
  have h := c9_signing_order_invariant allOkOracle [] darwinCfg "/repo"
    "Developer ID" scFullConfig rfl
  refine ⟨(h.1 (by decide)).2, ?_⟩
  obtain ⟨a, p, t, ha, hp, ht, _, hb⟩ := h.2 (by decide)
  cases Option.some.inj ha
  cases Option.some.inj hp
  cases Option.some.inj ht
  exact hb

/-! ## Timeout-halting lemmas: a timed-out invocation is always the last
one of its fragment, and its error is what the fragment propagates -/

theorem timeoutHalts_pass (o : CmdOracle) : timeoutHalts o Run.pass := by
  intro i inv hi _
  simp [Run.pass, List.get?] at hi

theorem timeoutHalts_raise (o : CmdOracle) (e : PipelineError) :
    timeoutHalts o (Run.raise e) := by
  intro i inv hi _
  simp [Run.raise, List.get?] at hi

theorem timeoutHalts_step (o : CmdOracle) (env : List (String × String))
    (cmd : Cmd) : timeoutHalts o (step o env cmd) := by
  intro i inv hi hslow
  rw [step_invs] at hi
  cases i with
  | zero =>
    simp only [List.get?, Option.some.injEq] at hi
    subst hi
    refine ⟨by simp [step_invs], ?_⟩
    have hrc : run_command o cmd true 3600 =
        Except.error (PipelineError.commandTimeout cmd 3600) := by
      simp [run_command, hslow]
    simp [step, hrc]
  | succ n =>
    simp [List.get?] at hi

theorem timeoutHalts_seq {o : CmdOracle} {a b : Run}
    (ha : timeoutHalts o a) (hb : timeoutHalts o b) :
    timeoutHalts o (Run.seq a b) := by
  intro i inv hi hslow
  cases herr : a.err with
  | some e =>
    rw [run_seq_err b herr] at hi ⊢
    exact ha i inv hi hslow
  | none =>
    simp only [run_seq_ok_left b herr] at hi ⊢
    rcases Nat.lt_or_ge i a.invs.length with hlt | hge
    · rw [List.get?_append hlt] at hi
      have hcontra := (ha i inv hi hslow).2
      rw [herr] at hcontra
      exact absurd hcontra (by simp)
    · rw [List.get?_append_right hge] at hi
      obtain ⟨hidx, herrb⟩ := hb _ inv hi hslow
      refine ⟨?_, herrb⟩
      have hbne : b.invs ≠ [] := by
        intro hnil
        rw [hnil] at hi
        simp [List.get?] at hi
      have hblen : 0 < b.invs.length := List.length_pos.mpr hbne
      rw [List.length_append]
      omega

theorem configure_timeoutHalts (o : CmdOracle)
    (env : List (String × String)) (c : BuildConfiguration)
    (root : String) : timeoutHalts o (configure_cmake o env c root) := by
  unfold configure_cmake
  exact timeoutHalts_step o env _

theorem build_timeoutHalts (o : CmdOracle) (env : List (String × String))
    (c : BuildConfiguration) (root : String) :
    timeoutHalts o (build_application o env c root) := by
  unfold build_application
  exact timeoutHalts_step o env _

theorem run_tests_timeoutHalts (o : CmdOracle)
    (env : List (String × String)) (c : BuildConfiguration)
    (root : String) : timeoutHalts o (run_tests o env c root) := by
  unfold run_tests
  split
  · exact timeoutHalts_pass o
  · exact timeoutHalts_step o env _

theorem install_timeoutHalts (o : CmdOracle) (env : List (String × String))
    (c : BuildConfiguration) (root : String) (fs : ProfileStore) :
    timeoutHalts o (install_dependencies o env c root fs).2.2 := by
  unfold install_dependencies
  split <;> exact timeoutHalts_step o env _

theorem notarize_timeoutHalts (o : CmdOracle)
    (env : List (String × String)) (dmg : String)
    (sc : List (String × String)) :
    timeoutHalts o (notarize_macos_app o env dmg sc) := by
  unfold notarize_macos_app
  cases dictGet sc "apple_id" with
  | none => exact timeoutHalts_raise o _
  | some a =>
    cases dictGet sc "app_password" with
    | none => exact timeoutHalts_raise o _
    | some p =>
      cases dictGet sc "team_id" with
      | none => exact timeoutHalts_raise o _
      | some t =>
        exact timeoutHalts_seq (timeoutHalts_step o env _)
          (timeoutHalts_step o env _)

theorem sign_macos_timeoutHalts (o : CmdOracle)
    (env : List (String × String)) (c : BuildConfiguration) (root : String)
    (sc : List (String × String)) :
    timeoutHalts o (sign_macos_app o env c root sc) := by
  unfold sign_macos_app
  cases dictGet sc "identity" with
  | none => exact timeoutHalts_raise o _
  | some i =>
    refine timeoutHalts_seq (timeoutHalts_step o env _)
      (timeoutHalts_seq (timeoutHalts_step o env _)
        (timeoutHalts_seq (timeoutHalts_step o env _) ?_))
    split
    · exact notarize_timeoutHalts o env _ sc
    · exact timeoutHalts_pass o

theorem sign_windows_timeoutHalts (o : CmdOracle)
    (env : List (String × String)) (c : BuildConfiguration) (root : String)
    (sc : List (String × String)) :
    timeoutHalts o (sign_windows_app o env c root sc) := by
  unfold sign_windows_app
  cases dictGet sc "certificate_path" with
  | none => exact timeoutHalts_raise o _
  | some cp =>
    cases dictGet sc "certificate_password" with
    | none => exact timeoutHalts_raise o _
    | some pw => exact timeoutHalts_step o env _

theorem sign_application_timeoutHalts (o : CmdOracle)
    (env : List (String × String)) (c : BuildConfiguration) (root : String)
    (sc : Option (List (String × String))) :
    timeoutHalts o (sign_application o env c root sc) := by
  unfold sign_application
  split
  · exact timeoutHalts_pass o
  · split
    · exact sign_macos_timeoutHalts o env c root _
    · split
      · exact sign_windows_timeoutHalts o env c root _
      · exact timeoutHalts_pass o

theorem create_package_timeoutHalts (o : CmdOracle)
    (env : List (String × String)) (c : BuildConfiguration)
    (root version : String) (deployAvailable : Bool) :
    timeoutHalts o (create_package o env c root version deployAvailable) := by
  unfold create_package
  split
  · exact timeoutHalts_step o env _
  · split
    · refine timeoutHalts_seq (timeoutHalts_step o env _) ?_
      split
      · exact timeoutHalts_step o env _
      · exact timeoutHalts_pass o
    · exact timeoutHalts_pass o

theorem main_run_timeoutHalts (o : CmdOracle) (h : Host) (args : Args)
    (root : String) (i : Nat) (inv : Invocation)
    (hi : (main_run o h args root).invs.get? i = some inv)
    (hslow : 3600 < (o inv.cmd).duration) :
    i = (main_run o h args root).invs.length - 1 ∧
    (main_run o h args root).exitCode = 1 := by
  simp only [main_run] at hi ⊢
  set c := mkBuildConfiguration h.hostOS h.hostMachine args.target_os
    args.arch args.build_type with hc
  set env := setup_environment c h.environ with henv
  have htest : timeoutHalts o
      (if args.test then run_tests o env c root else Run.pass) := by
    split
    · exact run_tests_timeoutHalts o env c root
    · exact timeoutHalts_pass o
  have hpack : timeoutHalts o
      (if args.package then
        create_package o env c root h.version h.deployAvailable
       else Run.pass) := by
    split
    · exact create_package_timeoutHalts o env c root h.version
        h.deployAvailable
    · exact timeoutHalts_pass o
  have hbig := timeoutHalts_seq (install_timeoutHalts o env c root
      h.profiles)
    (timeoutHalts_seq (configure_timeoutHalts o env c root)
      (timeoutHalts_seq (build_timeoutHalts o env c root)
        (timeoutHalts_seq htest
          (timeoutHalts_seq
            (sign_application_timeoutHalts o env c root args.sign) hpack))))
  obtain ⟨hidx, herr⟩ := hbig i inv hi hslow
  exact ⟨hidx, by rw [herr]; rfl⟩

/-- C6: the timeout contract, for every command invocation — `run_command`
on any command whose process runs longer than its timeout `T` fails with
the timeout error instead of returning a result; and in any `main` run,
any invocation (at whatever stage) whose process outlives the default
3600 s timeout is the last invocation of the whole run — no later command
of any stage is attempted — and the process exits with code 1. -/
theorem c6_timeout_aborts_pipeline (o : CmdOracle) (h : Host) (args : Args)
    (root : String) :
    (∀ (cmd : Cmd) (check : Bool) (T : Nat), T < (o cmd).duration →
      run_command o cmd check T =
        Except.error (PipelineError.commandTimeout cmd T)) ∧
    (∀ (i : Nat) (inv : Invocation),
      (main_run o h args root).invs.get? i = some inv →
      3600 < (o inv.cmd).duration →
      (main_run o h args root).exitCode = 1 ∧
      i = (main_run o h args root).invs.length - 1) := by
  constructor
  · intro cmd check T hT
    simp [run_command, hT]
  · intro i inv hi hslow
    obtain ⟨hidx, hexit⟩ := main_run_timeoutHalts o h args root i inv hi
      hslow
    exact ⟨hexit, hidx⟩

/-- C6 witness: a packaging-stage (`cpack`, the pipeline's fourth command)
timeout — the generic clause fails it with the timeout error, and the run
exits 1 with that fourth invocation as the last one (`linuxdeploy` and
everything after are never attempted). -/
theorem c6_timeout_aborts_pipeline_witness :
    run_command slowCpackOracle
      (cpackCmd (mkBuildConfiguration "linux" "x86_64" (some "linux")
        (some "x86_64") "Release") "/repo") true 3600 =
      Except.error (PipelineError.commandTimeout
        (cpackCmd (mkBuildConfiguration "linux" "x86_64" (some "linux")
          (some "x86_64") "Release") "/repo") 3600) ∧
    (main_run slowCpackOracle linuxHost linuxArgs "/repo").exitCode = 1 ∧
    3 = (main_run slowCpackOracle linuxHost linuxArgs "/repo").invs.length
      - 1 := by
  have h := c6_timeout_aborts_pipeline slowCpackOracle linuxHost linuxArgs
    "/repo"
  refine ⟨h.1 _ true 3600 (by decide), ?_, ?_⟩
  · exact (h.2 3 ⟨cpackCmd (mkBuildConfiguration "linux" "x86_64"
      (some "linux") (some "x86_64") "Release") "/repo",
      [("PATH", "/usr/bin"), ("CC", "gcc"), ("CXX", "g++")]⟩ (by decide)
      (by decide)).1
  · exact (h.2 3 ⟨cpackCmd (mkBuildConfiguration "linux" "x86_64"
      (some "linux") (some "x86_64") "Release") "/repo",
      [("PATH", "/usr/bin"), ("CC", "gcc"), ("CXX", "g++")]⟩ (by decide)
      (by decide)).2

end Murmur
